import Mathlib

/-!
Verification of the excel-agent frontend event handling
(`frontend/src/App.jsx`, its `part_000` variant, `VoiceInput`,
`TextInput.jsx`, `services/websocket.js`) together with a model,
taken from the specification, of the server-side progress-event
stream that those clients consume.
-/

set_option maxHeartbeats 1000000

namespace ExcelAgent

/-- JavaScript `String.prototype.trim`, modelled executably: drop
whitespace characters from both ends of the string. -/
def jsTrim (s : String) : String :=
  ⟨((s.data.dropWhile Char.isWhitespace).reverse.dropWhile Char.isWhitespace).reverse⟩

/-- JavaScript string truthiness fallback: `s || dflt`.  An absent
(`none`) or empty string is falsy and yields the fallback. -/
def jsOr (s : Option String) (dflt : String) : String :=
  match s with
  | none => dflt
  | some v => if v = "" then dflt else v

/-- JavaScript truthiness of an optional string (`data.error && ...`). -/
def jsTruthy (s : Option String) : Bool :=
  jsOr s "" ≠ ""

/-- A server-sent progress event, as decoded by `createSSEConnection`
(`services/api.js`, reproduced in `README.md`).  Payload fields that the
client reads with a `||` fallback are optional. -/
inductive SSEEvent where
  | status (message : Option String)
  | fileSelected (fileName : String)
  | codeChunk (chunk : Option String)
  | executionResult (output : Option String) (error : Option String)
      (success : Option Bool) (graphFiles : Option (List String))
  | columnTraceability (columnsUsed : Option (List String)) (originalFile : Option String)
  | complete
  | error (err : Option String)
  deriving DecidableEq, Repr

namespace SSEEvent

/-- The two terminal event kinds of the streaming contract. -/
def isTerminal : SSEEvent → Bool
  | .complete => true
  | .error _ => true
  | _ => false

/-- The chunk payload carried by a `code_chunk` event, as the client
reads it (`data.chunk || ""`). -/
def chunkText : SSEEvent → Option String
  | .codeChunk c => some (jsOr c "")
  | _ => none

end SSEEvent

/-- React state of the `App` component in `frontend/src/App.jsx`, plus
`connOpen`, which records whether the current `EventSource` is still
open (events are only delivered while it is). -/
structure AppState where
  code : String
  output : String
  error : String
  success : Bool
  columns : List String
  originalFile : String
  isLoading : Bool
  status : String
  question : String
  graphFiles : List String
  connOpen : Bool
  deriving DecidableEq, Repr

/-- The `useState` initial values of `App.jsx`; no SSE connection yet. -/
def initialAppState : AppState :=
  { code := "", output := "", error := "", success := false, columns := []
    originalFile := "", isLoading := false, status := "", question := ""
    graphFiles := [], connOpen := false }

/-- One SSE message dispatch of `handleAnalyze` in `App.jsx`
(lines 58-96): the `if/else` chain over `data.type`. -/
def appStep (s : AppState) : SSEEvent → AppState
  | .status msg => { s with status := jsOr msg "" }
  | .fileSelected name => { s with status := "Selected file: " ++ name }
  | .codeChunk c => { s with code := s.code ++ jsOr c "" }
  | .executionResult out err succ gfs =>
      { s with
        output := jsOr out ""
        error := if jsTruthy err && !(succ.getD false) then jsOr err "" else ""
        success := succ.getD false
        graphFiles := gfs.getD []
        isLoading := false
        status := "" }
  | .columnTraceability cols file =>
      { s with
        columns := cols.getD []
        originalFile := jsOr file ""
        isLoading := false
        status := ""
        connOpen := false }
  | .complete => s
  | .error err =>
      { s with
        error := jsOr err "An error occurred"
        isLoading := false
        status := ""
        connOpen := false }

/-- Entering `handleAnalyze` in `App.jsx` (lines 36-56): reset every
result field, close any previous `EventSource`, open a new one. -/
def handleAnalyzeInit (_s : AppState) (q : String) : AppState :=
  { code := "", output := "", error := "", success := false, columns := []
    originalFile := "", graphFiles := [], question := q, isLoading := true
    status := "Analyzing...", connOpen := true }

/-- Deliver a list of server events to the client: each event is handed
to `appStep` only while the `EventSource` is open (after
`eventSource.close()` the browser dispatches nothing further).  Returns
the final state and the list of events the client actually processed. -/
def processList : AppState → List SSEEvent → AppState × List SSEEvent
  | s, [] => (s, [])
  | s, e :: es =>
      if s.connOpen then
        let r := processList (appStep s e) es
        (r.1, e :: r.2)
      else (s, [])

/-- The `onerror` callback of `handleAnalyze` in `App.jsx`
(lines 98-117): stop loading, close the connection, and show the
fallback connection error only if neither code nor output arrived. -/
def onErrorStep (s : AppState) : AppState :=
  { s with
    isLoading := false
    connOpen := false
    error :=
      if s.output = "" && s.code = "" then
        "Connection error. Please check if the backend server is running."
      else s.error }

/-- React state of the `App` component in the `part_000` variant of
`App.jsx`, which adds an explicit completion flag and a record of
whether the SSE stream has been closed. -/
structure App0State where
  code : String
  output : String
  error : String
  success : Bool
  columns : List String
  originalFile : String
  isLoading : Bool
  status : String
  question : String
  graphFiles : List String
  isComplete : Bool
  sseStreamClosed : Bool
  connOpen : Bool
  deriving DecidableEq, Repr

/-- The `useState` initial values of the `part_000` App. -/
def initialApp0State : App0State :=
  { code := "", output := "", error := "", success := false, columns := []
    originalFile := "", isLoading := false, status := "", question := ""
    graphFiles := [], isComplete := false, sseStreamClosed := false
    connOpen := false }

/-- `handleExecutionResult` of the `part_000` App (lines 96-106). -/
def handleExecutionResult (s : App0State) (out err : Option String)
    (succ : Option Bool) (gfs : Option (List String)) : App0State :=
  { s with
    output := jsOr out ""
    error := if jsTruthy err && !(succ.getD false) then jsOr err "" else ""
    success := succ.getD false
    graphFiles := gfs.getD []
    status := "" }

/-- One SSE message dispatch of `handleAnalyze` in the `part_000` App
(lines 120-142). -/
def app0Step (s : App0State) : SSEEvent → App0State
  | .status msg => { s with status := jsOr msg "" }
  | .fileSelected name => { s with status := "Selected file: " ++ name }
  | .codeChunk c => { s with code := s.code ++ jsOr c "" }
  | .executionResult out err succ gfs => handleExecutionResult s out err succ gfs
  | .columnTraceability cols file =>
      { s with
        columns := cols.getD []
        originalFile := jsOr file ""
        connOpen := false
        sseStreamClosed := true }
  | .complete => s
  | .error err =>
      { s with
        error := jsOr err "An error occurred"
        isLoading := false
        isComplete := false
        status := ""
        connOpen := false
        sseStreamClosed := true }

/-- `resetAnalysisState` of the `part_000` App (lines 81-93). -/
def resetAnalysisState (s : App0State) : App0State :=
  { s with
    code := "", output := "", error := "", success := false, columns := []
    originalFile := "", graphFiles := [], isComplete := false
    sseStreamClosed := false, status := "" }

/-- Entering `handleAnalyze` in the `part_000` App (lines 108-118):
reset, close the previous connection, set the question, start loading,
open a new connection. -/
def handleAnalyze0Init (s : App0State) (q : String) : App0State :=
  { resetAnalysisState s with question := q, isLoading := true, connOpen := true }

/-- `hasAllData` inside the completion effect of the `part_000` App
(line 61): some code, some output or error, and some traced columns. -/
def hasAllData (s : App0State) : Bool :=
  decide (0 < s.code.length) && (s.output ≠ "" || s.error ≠ "") && decide (s.columns ≠ [])

/-- The completion `useEffect` of the `part_000` App (lines 54-78),
with its delayed re-check collapsed to the state it finally observes:
`isComplete` is set only if the stream was closed, all data is present,
and the connection ref is still closed when the timeout fires. -/
def completionEffect (s : App0State) : App0State :=
  if s.isComplete || !s.sseStreamClosed then s
  else if hasAllData s && !s.connOpen then
    { s with isLoading := false, isComplete := true
             status := "The analysis is complete." }
  else s

/-- `handleVoiceAnalysisResult` of the `part_000` App (lines 165-184):
the WebSocket-path reducer over forwarded events. -/
def handleVoiceAnalysisResult (s : App0State) : SSEEvent → App0State
  | .codeChunk c => { s with code := s.code ++ jsOr c "" }
  | .executionResult out err succ gfs => handleExecutionResult s out err succ gfs
  | .columnTraceability cols file =>
      { s with
        columns := cols.getD []
        originalFile := jsOr file ""
        sseStreamClosed := true }
  | .error err =>
      { s with
        error := jsOr err "An error occurred"
        isLoading := false
        isComplete := false
        sseStreamClosed := true }
  | .complete =>
      { s with isLoading := false, isComplete := true
               status := "The analysis is complete." }
  | _ => s

/-- One WebSocket message routed through the `startListening` handler
of `VoiceInput` (`part_001`, lines 318-357; the lines 123-151 variant
forwards the same event kinds) into the `part_000` App:
`onAnalysisResult` forwards `code_chunk`, `execution_result`,
`column_traceability` and `error` to `handleVoiceAnalysisResult`;
a `complete` message only calls `onStartLoading(false)` and is never
forwarded; `status` and `file_selected` messages only update the local
voice status. -/
def voiceRouteStep (s : App0State) : SSEEvent → App0State
  | .codeChunk c => handleVoiceAnalysisResult s (.codeChunk c)
  | .executionResult out err succ gfs =>
      handleVoiceAnalysisResult s (.executionResult out err succ gfs)
  | .columnTraceability cols file =>
      handleVoiceAnalysisResult s (.columnTraceability cols file)
  | .error err =>
      { handleVoiceAnalysisResult s (.error err) with isLoading := false }
  | .complete => { s with isLoading := false }
  | _ => s

/-- `onerror` of `handleAnalyze` in the `part_000` App (lines 143-159). -/
def onErrorStep0 (s : App0State) : App0State :=
  { s with
    isLoading := false
    connOpen := false
    sseStreamClosed := true
    error :=
      if s.output = "" && s.code = "" then
        "Connection error. Please check if the backend server is running."
      else s.error }

/-- `handleSubmit` of `TextInput.jsx` (lines 9-15): the question is
dispatched (trimmed) only when non-blank and the form is not disabled;
`App` passes `disabled := isLoading`.  Returns the question handed to
`onAnalyze`, or `none` when no request is dispatched. -/
def textInputSubmit (question : String) (disabled : Bool) : Option String :=
  if jsTrim question ≠ "" && !disabled then some (jsTrim question) else none

/-- The single message the voice client sends for a transcription:
a JSON object with one field, `text`. -/
structure VoiceWireMsg where
  text : String
  deriving DecidableEq, Repr

/-- `sendTranscription` of `services/websocket.js` (lines 43-49): send
the one JSON text message if the socket exists and its `readyState` is
`OPEN`; otherwise send nothing.  Returns the list of messages written
to the socket. -/
def sendTranscription (wsPresent : Bool) (wsOpen : Bool) (t : String) :
    List VoiceWireMsg :=
  if wsPresent && wsOpen then [{ text := t }] else []

/-- The observable actions of one `recognition.onresult` dispatch in
`VoiceInput` when a final transcript is present. -/
structure VoiceDispatch where
  didResetState : Bool
  questionSet : Option String
  startedLoading : Bool
  wsSent : List VoiceWireMsg
  transcriptionSent : Option String
  voiceStatus : String
  hasValidTranscription : Bool
  deriving DecidableEq, Repr

/-- The final-transcript branch of `recognition.onresult` in
`VoiceInput` (`part_001`, lines 232-266; the lines 45-77 variant is
identical except for the `hasValidTranscription` flag): dispatch an
analysis request only when the trimmed text is non-empty and at least
3 characters long. -/
def voiceOnFinalResult (wsPresent : Bool) (wsOpen : Bool)
    (finalTranscript : String) : VoiceDispatch :=
  let text := jsTrim finalTranscript
  if text ≠ "" && decide (3 ≤ text.length) then
    { didResetState := true
      questionSet := some text
      startedLoading := true
      wsSent := if wsPresent then sendTranscription wsPresent wsOpen text else []
      transcriptionSent := some text
      voiceStatus := "Heard: " ++ text
      hasValidTranscription := true }
  else
    { didResetState := false
      questionSet := none
      startedLoading := false
      wsSent := []
      transcriptionSent := none
      voiceStatus := "No clear speech detected. Please try again."
      hasValidTranscription := false }

/-- The result of the execution collaborator, as carried by the
`execution_result` payload. -/
structure ExecResult where
  output : String
  success : Bool
  error : String
  graphFiles : List String
  deriving DecidableEq, Repr

/-- How one pipeline run ends, per the specification state machine. -/
inductive RunOutcome where
  | selectionFailure (msg : String)
  | reconstructionFailure (msg : String)
  | generationFailure (chunks : List String) (msg : String)
  | execInfraFailure (chunks : List String) (msg : String)
  | finished (chunks : List String) (exec : ExecResult) (cols : List String)
  deriving DecidableEq, Repr

/-- Modelled from the spec: the server-side `streamAnalyze` emission
(the backend `app/` directory is not part of the sources).  One event
per pipeline transition of the specification state machine
(Started, Selecting, Reconstructing, Generating, Executing,
TracingColumns, Completed, Errored), including the edge-case policy
that a code-level execution failure still reaches `column_traceability`
and `complete`. -/
def serverEmit (file : String) : RunOutcome → List SSEEvent
  | .selectionFailure msg =>
      [.status (some "selecting file")] ++ [.error (some msg)]
  | .reconstructionFailure msg =>
      [.status (some "selecting file"), .fileSelected file] ++ [.error (some msg)]
  | .generationFailure chunks msg =>
      [.status (some "selecting file"), .fileSelected file,
       .status (some "generating code")] ++
      chunks.map (fun c => .codeChunk (some c)) ++ [.error (some msg)]
  | .execInfraFailure chunks msg =>
      [.status (some "selecting file"), .fileSelected file,
       .status (some "generating code")] ++
      chunks.map (fun c => .codeChunk (some c)) ++
      [.status (some "executing")] ++ [.error (some msg)]
  | .finished chunks ex cols =>
      [.status (some "selecting file"), .fileSelected file,
       .status (some "generating code")] ++
      chunks.map (fun c => .codeChunk (some c)) ++
      [.status (some "executing"),
       .executionResult (some ex.output) (some ex.error) (some ex.success)
         (some ex.graphFiles),
       .columnTraceability (some cols) (some file)] ++ [.complete]

/-- The event-sequence shape that the specification asserts a client
processes for a successful run: `status*, file_selected, status*,
code_chunk*, execution_result, column_traceability, complete`.
(Spec-side definition, used to compare the claim against the code.) -/
def matchesSuccessShape (es : List SSEEvent) : Bool :=
  let rec dropStatuses : List SSEEvent → List SSEEvent
    | .status _ :: rest => dropStatuses rest
    | l => l
  let rec dropChunks : List SSEEvent → List SSEEvent
    | .codeChunk _ :: rest => dropChunks rest
    | l => l
  match dropStatuses es with
  | .fileSelected _ :: rest =>
      match dropChunks (dropStatuses rest) with
      | [.executionResult _ _ _ _, .columnTraceability _ _, .complete] => true
      | _ => false
  | _ => false

/-- Concatenation of a list of chunk texts, in order. -/
def concatChunks : List String → String
  | [] => ""
  | c :: cs => c ++ concatChunks cs

/-- The chunk payloads carried by the `code_chunk` events of a stream,
in arrival order. -/
def chunkTexts (es : List SSEEvent) : List String :=
  es.filterMap SSEEvent.chunkText

/-- Whether a stream contains a terminal (`complete` or `error`) event. -/
def hasTerminal (es : List SSEEvent) : Bool :=
  es.any SSEEvent.isTerminal

/-- Events whose `App.jsx` handler leaves the `EventSource` open
(everything except `column_traceability` and `error`). -/
def keepsOpen : SSEEvent → Bool
  | .columnTraceability _ _ => false
  | .error _ => false
  | _ => true

/-- The no-dispatch outcome of `recognition.onresult` for a final
transcript that is too short. -/
def noVoiceDispatch : VoiceDispatch :=
  { didResetState := false, questionSet := none, startedLoading := false
    wsSent := [], transcriptionSent := none
    voiceStatus := "No clear speech detected. Please try again."
    hasValidTranscription := false }

end ExcelAgent

namespace ExcelAgent

theorem jsOr_some_empty (c : String) : jsOr (some c) "" = c := by
  unfold jsOr
  by_cases h : c = "" <;> simp [h]

theorem keepsOpen_connOpen (s : AppState) (e : SSEEvent) (h : keepsOpen e = true) :
    (appStep s e).connOpen = s.connOpen := by
  cases e <;> simp_all [appStep, keepsOpen]

theorem foldl_keepsOpen (es : List SSEEvent) : ∀ s : AppState,
    (∀ e ∈ es, keepsOpen e = true) → (es.foldl appStep s).connOpen = s.connOpen := by
  induction es with
  | nil => intro s _; rfl
  | cons e es ih =>
      intro s h
      simp only [List.foldl_cons]
      rw [ih (appStep s e) (fun x hx => h x (List.mem_cons_of_mem _ hx)),
        keepsOpen_connOpen s e (h e (List.mem_cons_self _ _))]

theorem processList_append_open (xs : List SSEEvent) : ∀ (ys : List SSEEvent) (s : AppState),
    s.connOpen = true → (∀ e ∈ xs, keepsOpen e = true) →
    processList s (xs ++ ys) =
      ((processList (xs.foldl appStep s) ys).1,
        xs ++ (processList (xs.foldl appStep s) ys).2) := by
  induction xs with
  | nil => intro ys s _ _; simp [List.nil_append, List.foldl_nil]
  | cons e xs ih =>
      intro ys s hopen hk
      have he : keepsOpen e = true := hk e (List.mem_cons_self _ _)
      have hxs : ∀ x ∈ xs, keepsOpen x = true :=
        fun x hx => hk x (List.mem_cons_of_mem _ hx)
      have hopen2 : (appStep s e).connOpen = true := by
        rw [keepsOpen_connOpen s e he]; exact hopen
      simp only [List.cons_append, processList, hopen, if_true, List.append_eq]
      rw [ih ys (appStep s e) hopen2 hxs]
      simp [List.foldl_cons]

theorem processList_code (es : List SSEEvent) : ∀ s : AppState,
    (processList s es).1.code = s.code ++ concatChunks (chunkTexts (processList s es).2) := by
  induction es with
  | nil => intro s; simp [processList, chunkTexts, concatChunks]
  | cons e es ih =>
      intro s
      by_cases h : s.connOpen = true
      · simp only [processList, h, if_true]
        rw [ih (appStep s e)]
        cases e <;>
          simp [appStep, chunkTexts, SSEEvent.chunkText, concatChunks,
            List.filterMap_cons, String.append_assoc]
      · have h2 : s.connOpen = false := by
          revert h; cases s.connOpen <;> simp
        simp [processList, h2, chunkTexts, concatChunks]

theorem processList_closed (s : AppState) (es : List SSEEvent)
    (h : s.connOpen = false) : processList s es = (s, []) := by
  cases es with
  | nil => rfl
  | cons e es => simp [processList, h]

theorem serverEmit_getLast_terminal (f : String) (o : RunOutcome) :
    ∃ e, (serverEmit f o).getLast? = some e ∧ e.isTerminal = true := by
  cases o <;> exact ⟨_, List.getLast?_concat _, rfl⟩

theorem processTail_traceability (m : AppState) (h : m.connOpen = true)
    (c : Option (List String)) (f : Option String) :
    (processList m [SSEEvent.columnTraceability c f, SSEEvent.complete]).2 =
      [SSEEvent.columnTraceability c f] := by
  simp [processList, h, appStep]

/-- C1, counterexample: a delivered stream of the exact claimed shape
`status*, file_selected, status*, code_chunk*, execution_result,
column_traceability, complete` is not what the client processes — the
client closes the `EventSource` when `column_traceability` arrives, so
the `complete` event is never processed and the processed sequence does
not match the claimed shape. -/
theorem claim_C1_counterexample :
    matchesSuccessShape
        [.status (some "selecting file"), .fileSelected "sales.xlsx",
         .status (some "generating code"), .codeChunk (some "import pandas as pd"),
         .executionResult (some "done") none (some true) (some []),
         .columnTraceability (some ["region"]) (some "sales.xlsx"),
         .complete] = true
    ∧ (processList (handleAnalyzeInit initialAppState "q")
          [.status (some "selecting file"), .fileSelected "sales.xlsx",
           .status (some "generating code"), .codeChunk (some "import pandas as pd"),
           .executionResult (some "done") none (some true) (some []),
           .columnTraceability (some ["region"]) (some "sales.xlsx"),
           .complete]).2 ≠
        [.status (some "selecting file"), .fileSelected "sales.xlsx",
         .status (some "generating code"), .codeChunk (some "import pandas as pd"),
         .executionResult (some "done") none (some true) (some []),
         .columnTraceability (some ["region"]) (some "sales.xlsx"),
         .complete]
    ∧ matchesSuccessShape
        (processList (handleAnalyzeInit initialAppState "q")
          [.status (some "selecting file"), .fileSelected "sales.xlsx",
           .status (some "generating code"), .codeChunk (some "import pandas as pd"),
           .executionResult (some "done") none (some true) (some []),
           .columnTraceability (some ["region"]) (some "sales.xlsx"),
           .complete]).2 = false := by
  decide

/-- C1, amended: every delivered stream of the spec state machine ends
in a terminal event (`complete` or `error`); for a successful run the
client processes exactly
`status("selecting file"), file_selected, status("generating code"),
code_chunk*, status("executing"), execution_result, column_traceability`
— the server also emits `complete`, but the client closes the stream at
`column_traceability`, so nothing is processed after
`column_traceability` and the `complete` event is never processed. -/
theorem claim_C1 :
    (∀ (f : String) (o : RunOutcome),
      ∃ e, (serverEmit f o).getLast? = some e ∧ e.isTerminal = true)
    ∧ ∀ (f q : String) (s : AppState) (chunks : List String) (ex : ExecResult)
        (cols : List String),
      (processList (handleAnalyzeInit s q)
          (serverEmit f (.finished chunks ex cols))).2 =
        [.status (some "selecting file"), .fileSelected f,
         .status (some "generating code")] ++
        chunks.map (fun c => .codeChunk (some c)) ++
        [.status (some "executing"),
         .executionResult (some ex.output) (some ex.error) (some ex.success)
           (some ex.graphFiles),
         .columnTraceability (some cols) (some f)] := by
  refine ⟨serverEmit_getLast_terminal, ?_⟩
  intro f q s chunks ex cols
  have hsplit : serverEmit f (.finished chunks ex cols) =
      ([.status (some "selecting file"), .fileSelected f,
        .status (some "generating code")] ++
       chunks.map (fun c => SSEEvent.codeChunk (some c)) ++
       [.status (some "executing"),
        .executionResult (some ex.output) (some ex.error) (some ex.success)
          (some ex.graphFiles)]) ++
      [.columnTraceability (some cols) (some f), .complete] := by
    simp [serverEmit, List.append_assoc]
  have hk : ∀ e ∈ ([SSEEvent.status (some "selecting file"), .fileSelected f,
        .status (some "generating code")] ++
       chunks.map (fun c => SSEEvent.codeChunk (some c)) ++
       [.status (some "executing"),
        .executionResult (some ex.output) (some ex.error) (some ex.success)
          (some ex.graphFiles)]), keepsOpen e = true := by
    intro e he
    simp only [List.mem_append, List.mem_cons, List.mem_map,
      List.not_mem_nil, or_false] at he
    rcases he with ((h | h | h) | ⟨c, _, h⟩) | h | h <;> subst h <;> rfl
  have hopen : (handleAnalyzeInit s q).connOpen = true := rfl
  rw [hsplit, processList_append_open _ _ _ hopen hk]
  have hmid : (List.foldl appStep (handleAnalyzeInit s q)
      ([SSEEvent.status (some "selecting file"), SSEEvent.fileSelected f,
        SSEEvent.status (some "generating code")] ++
       chunks.map (fun c => SSEEvent.codeChunk (some c)) ++
       [SSEEvent.status (some "executing"),
        SSEEvent.executionResult (some ex.output) (some ex.error) (some ex.success)
          (some ex.graphFiles)])).connOpen = true := by
    rw [foldl_keepsOpen _ _ hk]; exact hopen
  rw [processTail_traceability _ hmid]
  simp [List.append_assoc]

/-- C2: code chunks are applied in strict arrival order — after any
prefix of the stream, the accumulated `code` equals the concatenation
of the chunk payloads processed so far, and each `code_chunk` handler
(both App variants) appends its payload to the end of the code. -/
theorem claim_C2 :
    (∀ (s₀ : AppState) (q : String) (es : List SSEEvent),
      (processList (handleAnalyzeInit s₀ q) es).1.code =
        concatChunks (chunkTexts (processList (handleAnalyzeInit s₀ q) es).2))
    ∧ (∀ (s : AppState) (c : Option String),
        (appStep s (.codeChunk c)).code = s.code ++ jsOr c "")
    ∧ ∀ (s : App0State) (c : Option String),
        (app0Step s (.codeChunk c)).code = s.code ++ jsOr c "" := by
  refine ⟨?_, fun s c => rfl, fun s c => rfl⟩
  intro s₀ q es
  have h := processList_code es (handleAnalyzeInit s₀ q)
  simpa [handleAnalyzeInit] using h

/-- C3: a code-level execution failure is not a pipeline failure — the
emitted stream still contains `column_traceability` and ends with
`complete`; on `execution_result` the client (both App variants) shows
the payload error exactly when `success` is false and `error` is
non-empty, and clears any previous error when `success` is true. -/
theorem claim_C3 (f : String) (chunks : List String) (ex : ExecResult)
    (cols : List String) (hs : ex.success = false) (he : ex.error ≠ "") :
    SSEEvent.columnTraceability (some cols) (some f) ∈
        serverEmit f (.finished chunks ex cols)
    ∧ (serverEmit f (.finished chunks ex cols)).getLast? = some SSEEvent.complete
    ∧ (∀ s : AppState,
        (appStep s (.executionResult (some ex.output) (some ex.error)
            (some ex.success) (some ex.graphFiles))).error = ex.error
        ∧ (appStep s (.executionResult (some ex.output) (some ex.error)
            (some ex.success) (some ex.graphFiles))).success = false)
    ∧ (∀ s : App0State,
        (handleExecutionResult s (some ex.output) (some ex.error)
            (some ex.success) (some ex.graphFiles)).error = ex.error)
    ∧ (∀ (s : AppState) (out err : Option String) (gfs : Option (List String)),
        (appStep s (.executionResult out err (some true) gfs)).error = "")
    ∧ (∀ (s : App0State) (out err : Option String) (gfs : Option (List String)),
        (handleExecutionResult s out err (some true) gfs).error = "")
    ∧ ∀ (s : AppState) (out : Option String) (succ : Option Bool)
        (gfs : Option (List String)),
        (appStep s (.executionResult out (some "") succ gfs)).error = ""
        ∧ (appStep s (.executionResult out none succ gfs)).error = "" := by
  refine ⟨by simp [serverEmit], List.getLast?_concat _, ?_, ?_, ?_, ?_, ?_⟩
  · intro s
    constructor
    · simp [appStep, jsTruthy, jsOr_some_empty, hs, he]
    · simp [appStep, hs]
  · intro s
    simp [handleExecutionResult, jsTruthy, jsOr_some_empty, hs, he]
  · intro s out err gfs
    simp [appStep]
  · intro s out err gfs
    simp [handleExecutionResult]
  · intro s out succ gfs
    constructor <;> simp [appStep, jsTruthy, jsOr]

theorem claim_C3_witness :
    (appStep initialAppState
        (.executionResult (some "") (some "ZeroDivisionError: division by zero")
          (some false) (some []))).error = "ZeroDivisionError: division by zero" := by
  have h := claim_C3 "sales.xlsx" ["import pandas as pd"]
      { output := "", success := false
        error := "ZeroDivisionError: division by zero", graphFiles := [] }
      ["region"] rfl (by decide)
  exact (h.2.2.1 initialAppState).1

/-- C4: an `error` event is additive — it sets the displayed error text
(with its fallback) and leaves the accumulated code, output, success
flag and graph files unchanged, in both App variants. -/
theorem claim_C4 (s : AppState) (s0 : App0State) (msg : Option String) :
    (appStep s (.error msg)).code = s.code
    ∧ (appStep s (.error msg)).output = s.output
    ∧ (appStep s (.error msg)).success = s.success
    ∧ (appStep s (.error msg)).graphFiles = s.graphFiles
    ∧ (appStep s (.error msg)).error = jsOr msg "An error occurred"
    ∧ (app0Step s0 (.error msg)).code = s0.code
    ∧ (app0Step s0 (.error msg)).output = s0.output
    ∧ (app0Step s0 (.error msg)).error = jsOr msg "An error occurred" :=
  ⟨rfl, rfl, rfl, rfl, rfl, rfl, rfl, rfl⟩

/-- C6: starting a new analysis resets every accumulated result field
and closes any previous stream — the post-reset state is independent of
all prior state (both App variants), and a closed stream delivers no
further events. -/
theorem claim_C6 :
    (∀ (s₁ s₂ : AppState) (q : String),
      handleAnalyzeInit s₁ q = handleAnalyzeInit s₂ q)
    ∧ (∀ (s : AppState) (q : String),
        (handleAnalyzeInit s q).code = "" ∧ (handleAnalyzeInit s q).output = ""
        ∧ (handleAnalyzeInit s q).error = ""
        ∧ (handleAnalyzeInit s q).success = false
        ∧ (handleAnalyzeInit s q).columns = []
        ∧ (handleAnalyzeInit s q).originalFile = ""
        ∧ (handleAnalyzeInit s q).graphFiles = [])
    ∧ (∀ (s : AppState) (es : List SSEEvent),
        processList { s with connOpen := false } es = ({ s with connOpen := false }, []))
    ∧ (∀ (s₁ s₂ : App0State) (q : String),
        handleAnalyze0Init s₁ q = handleAnalyze0Init s₂ q)
    ∧ ∀ (s : App0State) (q : String),
        (handleAnalyze0Init s q).code = "" ∧ (handleAnalyze0Init s q).output = ""
        ∧ (handleAnalyze0Init s q).error = ""
        ∧ (handleAnalyze0Init s q).success = false
        ∧ (handleAnalyze0Init s q).columns = []
        ∧ (handleAnalyze0Init s q).originalFile = ""
        ∧ (handleAnalyze0Init s q).graphFiles = []
        ∧ (handleAnalyze0Init s q).isComplete = false := by
  exact ⟨fun s₁ s₂ q => rfl,
    fun s q => ⟨rfl, rfl, rfl, rfl, rfl, rfl, rfl⟩,
    fun s es => processList_closed _ es rfl,
    fun s₁ s₂ q => rfl,
    fun s q => ⟨rfl, rfl, rfl, rfl, rfl, rfl, rfl, rfl⟩⟩

/-- C7: for a transcription `t`, the voice client writes exactly the
single message with text field `t` when the socket exists and is open,
and writes nothing when the socket is absent or not open. -/
theorem claim_C7 :
    (∀ t : String, sendTranscription true true t = [{ text := t }])
    ∧ (∀ (p : Bool) (t : String), sendTranscription p false t = [])
    ∧ ∀ (o : Bool) (t : String), sendTranscription false o t = [] := by
  refine ⟨fun t => rfl, fun p t => ?_, fun o t => rfl⟩
  cases p <;> rfl

/-- C10: the SSE connection-error handler never touches the accumulated
code or output; it shows the fallback connection-error message exactly
when neither code nor output has arrived yet, and otherwise leaves the
displayed error unchanged (both App variants). -/
theorem claim_C10 (s : AppState) (s0 : App0State) :
    (onErrorStep s).code = s.code ∧ (onErrorStep s).output = s.output
    ∧ (s.code = "" ∧ s.output = "" → (onErrorStep s).error =
        "Connection error. Please check if the backend server is running.")
    ∧ (s.code ≠ "" ∨ s.output ≠ "" → (onErrorStep s).error = s.error)
    ∧ (onErrorStep0 s0).code = s0.code ∧ (onErrorStep0 s0).output = s0.output
    ∧ (s0.code = "" ∧ s0.output = "" → (onErrorStep0 s0).error =
        "Connection error. Please check if the backend server is running.")
    ∧ (s0.code ≠ "" ∨ s0.output ≠ "" → (onErrorStep0 s0).error = s0.error) := by
  refine ⟨rfl, rfl, ?_, ?_, rfl, rfl, ?_, ?_⟩
  · rintro ⟨h1, h2⟩
    simp [onErrorStep, h1, h2]
  · intro h
    rcases h with h | h <;> simp [onErrorStep, h]
  · rintro ⟨h1, h2⟩
    simp [onErrorStep0, h1, h2]
  · intro h
    rcases h with h | h <;> simp [onErrorStep0, h]

theorem claim_C10_witness :
    (onErrorStep { initialAppState with code := "df.head()" }).error = ""
    ∧ (onErrorStep initialAppState).error =
        "Connection error. Please check if the backend server is running." := by
  refine ⟨?_, ?_⟩
  · exact (claim_C10 { initialAppState with code := "df.head()" } initialApp0State).2.2.2.1
      (Or.inl (by decide))
  · exact (claim_C10 initialAppState initialApp0State).2.2.1 ⟨rfl, rfl⟩

theorem ne_empty_of_three_le (t : String) (h : 3 ≤ t.length) : t ≠ "" := by
  intro he
  rw [he, String.length_empty] at h
  omega

/-- C5, counterexample: after a run has processed only
`status, file_selected, execution_result` — no terminal event —
`isLoading` is already false, so the text input accepts a new request;
and the voice path dispatches a valid transcript with no guard at all. -/
theorem claim_C5_counterexample :
    hasTerminal [SSEEvent.status (some "selecting file"),
        SSEEvent.fileSelected "sales.xlsx",
        SSEEvent.executionResult (some "42") none (some true) (some [])] = false
    ∧ (processList (handleAnalyzeInit initialAppState "first question")
        [SSEEvent.status (some "selecting file"),
         SSEEvent.fileSelected "sales.xlsx",
         SSEEvent.executionResult (some "42") none (some true) (some [])]).1.isLoading
        = false
    ∧ textInputSubmit "Analyze sales trends"
        (processList (handleAnalyzeInit initialAppState "first question")
          [SSEEvent.status (some "selecting file"),
           SSEEvent.fileSelected "sales.xlsx",
           SSEEvent.executionResult (some "42") none (some true) (some [])]).1.isLoading
        = some "Analyze sales trends"
    ∧ (voiceOnFinalResult true true "show me the totals").transcriptionSent =
        some "show me the totals" := by
  decide

/-- C5, amended: the text-input path accepts a new request exactly when
the question is non-blank and `isLoading` is false, but `isLoading` is
already cleared when `execution_result` is processed — before the
terminal event — and the voice path dispatches every valid final
transcript with no in-flight guard, so a new request can be accepted
before the previous request's terminal event is delivered. -/
theorem claim_C5 (q : String) (hq : jsTrim q ≠ "") :
    (∀ q2 : String, textInputSubmit q2 true = none)
    ∧ textInputSubmit q false = some (jsTrim q)
    ∧ (∀ (s : AppState) (out err : Option String) (succ : Option Bool)
          (gfs : Option (List String)),
        (appStep s (.executionResult out err succ gfs)).isLoading = false)
    ∧ ∀ (wp wo : Bool) (ft : String), 3 ≤ (jsTrim ft).length →
        (voiceOnFinalResult wp wo ft).transcriptionSent = some (jsTrim ft) := by
  refine ⟨?_, ?_, fun s out err succ gfs => rfl, ?_⟩
  · intro q2
    simp [textInputSubmit]
  · simp [textInputSubmit, hq]
  · intro wp wo ft h
    have hne : jsTrim ft ≠ "" := ne_empty_of_three_le _ h
    simp [voiceOnFinalResult, hne, h]

theorem claim_C5_witness :
    textInputSubmit "Analyze sales" false = some "Analyze sales"
    ∧ textInputSubmit "Analyze sales" true = none
    ∧ (voiceOnFinalResult true true "show totals").transcriptionSent =
        some "show totals" := by
  have h := claim_C5 "Analyze sales" (by decide)
  have ht : jsTrim "Analyze sales" = "Analyze sales" := by decide
  have ht2 : jsTrim "show totals" = "show totals" := by decide
  refine ⟨?_, h.1 "Analyze sales", ?_⟩
  · have h2 := h.2.1
    rwa [ht] at h2
  · have h3 := h.2.2.2 true true "show totals" (by decide)
    rwa [ht2] at h3

theorem completionEffect_isComplete (s : App0State) :
    (completionEffect s).isComplete =
      (s.isComplete || (s.sseStreamClosed && (hasAllData s && !s.connOpen))) := by
  unfold completionEffect
  by_cases h1 : (s.isComplete || !s.sseStreamClosed) = true
  · rw [if_pos h1]
    rcases (Bool.or_eq_true _ _).mp h1 with h | h
    · rw [h]; simp
    · have hs : s.sseStreamClosed = false := by
        revert h; cases s.sseStreamClosed <;> simp
      rw [hs]; simp
  · have hic : s.isComplete = false := by
      revert h1; cases s.isComplete <;> simp
    have hssc : s.sseStreamClosed = true := by
      revert h1; cases s.isComplete <;> cases s.sseStreamClosed <;> simp
    rw [if_neg h1]
    by_cases h2 : (hasAllData s && !s.connOpen) = true
    · rw [if_pos h2]
      simp [hic, hssc, h2]
    · have h2f : (hasAllData s && !s.connOpen) = false := by
        revert h2; cases (hasAllData s && !s.connOpen) <;> simp
      rw [if_neg h2]
      simp [hic, hssc, h2f]

/-- C8: `isComplete` becomes true only through the completion effect,
whose guard requires the stream closed (flag set and connection ref
closed), non-empty code, output or error present, and a non-empty
traced-column list.  No SSE event handler raises the flag, no routed
voice message raises it (the `VoiceInput` handler never forwards
`complete` to `onAnalysisResult`), a new request starts with it false,
and the connection-error handler leaves it unchanged — so `isComplete`
implies every result section has its data and no events are pending. -/
theorem claim_C8 :
    (∀ s : App0State, (completionEffect s).isComplete =
        (s.isComplete || (s.sseStreamClosed && (hasAllData s && !s.connOpen))))
    ∧ (∀ s : App0State, s.isComplete = false →
        (completionEffect s).isComplete = true →
        s.sseStreamClosed = true ∧ s.connOpen = false ∧ 0 < s.code.length
        ∧ (s.output ≠ "" ∨ s.error ≠ "") ∧ s.columns ≠ [])
    ∧ (∀ (s : App0State) (e : SSEEvent),
        (app0Step s e).isComplete = true → s.isComplete = true)
    ∧ (∀ (s : App0State) (e : SSEEvent),
        (voiceRouteStep s e).isComplete = true → s.isComplete = true)
    ∧ (∀ (s : App0State) (q : String), (handleAnalyze0Init s q).isComplete = false)
    ∧ ∀ s : App0State, (onErrorStep0 s).isComplete = s.isComplete := by
  refine ⟨completionEffect_isComplete, ?_, ?_, ?_, fun s q => rfl, fun s => rfl⟩
  · intro s h0 h1
    rw [completionEffect_isComplete, h0] at h1
    simp [hasAllData] at h1
    obtain ⟨hssc, ⟨⟨hlen, hoe⟩, hcols⟩, hco⟩ := h1
    exact ⟨hssc, hco, hlen, hoe, hcols⟩
  · intro s e
    cases e <;> simp [app0Step, handleExecutionResult]
  · intro s e
    cases e <;> simp [voiceRouteStep, handleVoiceAnalysisResult, handleExecutionResult]

theorem claim_C8_witness :
    ({ initialApp0State with
        code := "df.head()", output := "42"
        columns := ["region"], sseStreamClosed := true } : App0State).connOpen = false
    ∧ ({ initialApp0State with isComplete := true } : App0State).isComplete = true
    ∧ ({ initialApp0State with
          isComplete := true, code := "df" } : App0State).isComplete = true := by
  refine ⟨?_, ?_, ?_⟩
  · exact (claim_C8.2.1
      { initialApp0State with
        code := "df.head()", output := "42"
        columns := ["region"], sseStreamClosed := true } rfl (by decide)).2.1
  · exact claim_C8.2.2.1 { initialApp0State with isComplete := true }
      (SSEEvent.codeChunk (some "pd")) rfl
  · exact claim_C8.2.2.2.1 { initialApp0State with isComplete := true, code := "df" }
      SSEEvent.complete rfl

/-- C9: the voice component dispatches an analysis request — resetting
state, starting loading, sending over the WebSocket, invoking
`onTranscription` — exactly when the trimmed final transcript is at
least 3 characters long; shorter transcripts produce the no-dispatch
outcome, which touches none of the analysis state. -/
theorem claim_C9 (wp wo : Bool) (ft : String) :
    ((voiceOnFinalResult wp wo ft).transcriptionSent.isSome =
        decide (3 ≤ (jsTrim ft).length))
    ∧ ((voiceOnFinalResult wp wo ft).didResetState =
        decide (3 ≤ (jsTrim ft).length))
    ∧ ((voiceOnFinalResult wp wo ft).startedLoading =
        decide (3 ≤ (jsTrim ft).length))
    ∧ (3 ≤ (jsTrim ft).length →
        (voiceOnFinalResult wp wo ft).questionSet = some (jsTrim ft)
        ∧ (voiceOnFinalResult wp wo ft).transcriptionSent = some (jsTrim ft)
        ∧ (voiceOnFinalResult wp wo ft).wsSent = sendTranscription wp wo (jsTrim ft))
    ∧ ((jsTrim ft).length < 3 → voiceOnFinalResult wp wo ft = noVoiceDispatch) := by
  by_cases h : 3 ≤ (jsTrim ft).length
  · have hne : jsTrim ft ≠ "" := ne_empty_of_three_le _ h
    refine ⟨?_, ?_, ?_, fun _ => ⟨?_, ?_, ?_⟩, fun hlt => absurd h (by omega)⟩ <;>
      simp [voiceOnFinalResult, hne, h]
    cases wp <;> simp [sendTranscription]
  · refine ⟨?_, ?_, ?_, fun hc => absurd hc h, fun _ => ?_⟩ <;>
      simp [voiceOnFinalResult, h, noVoiceDispatch]

theorem claim_C9_witness :
    (voiceOnFinalResult true true " analyze sales trends ").transcriptionSent =
        some "analyze sales trends"
    ∧ (voiceOnFinalResult true true " analyze sales trends ").wsSent =
        [{ text := "analyze sales trends" }]
    ∧ voiceOnFinalResult true true "hi " = noVoiceDispatch := by
  have h1 := claim_C9 true true " analyze sales trends "
  have h2 := claim_C9 true true "hi "
  have ht : jsTrim " analyze sales trends " = "analyze sales trends" := by decide
  refine ⟨?_, ?_, h2.2.2.2.2 (by decide)⟩
  · have h3 := (h1.2.2.2.1 (by decide)).2.1
    rwa [ht] at h3
  · have h4 := (h1.2.2.2.1 (by decide)).2.2
    rw [ht] at h4
    rw [h4]
    rfl

end ExcelAgent
